import Mathlib

/-!
Shallow embedding of the generated Google Drive v3 client
(`src/drive_example/src/drive_v3_types.rs`).  Each service method in the
source builds a URL from a fixed base, a path, an `oauth_token` / `fields=*`
query prefix and percent-encoded optional parameters, resolves a scope set,
sends the request and interprets the response.  The definitions below mirror
those code paths; the theorems settle the specification claims about them.
-/

namespace DriveV3

/-- Byte classification used by `percent_encoding::NON_ALPHANUMERIC`: only the
ASCII digits and letters are left unescaped. -/
def isAlnumByte (b : Nat) : Bool :=
  (48 ≤ b && b ≤ 57) || (65 ≤ b && b ≤ 90) || (97 ≤ b && b ≤ 122)

/-- Uppercase hexadecimal digit, as emitted by the `percent_encoding` crate. -/
def hexDigitChar (n : Nat) : Char :=
  if n < 10 then Char.ofNat (48 + n) else Char.ofNat (55 + n)

/-- Encoding of one byte under `percent_encode(_, NON_ALPHANUMERIC)`:
alphanumeric bytes pass through, every other byte becomes `%XX`. -/
def percentEncodeByte (b : Nat) : String :=
  if isAlnumByte b then String.singleton (Char.ofNat b)
  else "%" ++ String.singleton (hexDigitChar (b / 16)) ++
    String.singleton (hexDigitChar (b % 16))

/-- Encoding of a byte sequence under `percent_encode(_, NON_ALPHANUMERIC)`. -/
def percentEncode : List Nat → String
  | [] => ""
  | b :: t => percentEncodeByte b ++ percentEncode t

/-- UTF-8 encoding of one character (models Rust `str::as_bytes` per char). -/
def charUtf8 (c : Char) : List Nat :=
  if c.toNat < 0x80 then [c.toNat]
  else if c.toNat < 0x800 then [0xC0 + c.toNat / 0x40, 0x80 + c.toNat % 0x40]
  else if c.toNat < 0x10000 then
    [0xE0 + c.toNat / 0x1000, 0x80 + (c.toNat / 0x40) % 0x40, 0x80 + c.toNat % 0x40]
  else
    [0xF0 + c.toNat / 0x40000, 0x80 + (c.toNat / 0x1000) % 0x40,
     0x80 + (c.toNat / 0x40) % 0x40, 0x80 + c.toNat % 0x40]

/-- UTF-8 byte sequence of a string (models Rust `str::as_bytes`). -/
def utf8Bytes (s : String) : List Nat :=
  s.data.flatMap charUtf8

/-- Rendering of a Rust `bool` through `format!("{}", val)`. -/
def boolString (b : Bool) : String :=
  if b then "true" else "false"

/-- Character classification of percent-encoder output: every output character
is either `%` or an ASCII alphanumeric (including the uppercase hex digits). -/
def pctOutChar (c : Char) : Bool :=
  c == '%' || isAlnumByte c.toNat

/-- Substring test on character lists (needle occurs contiguously in hay). -/
def containsSub (needle : List Char) : List Char → Bool
  | [] => needle.isEmpty
  | c :: t => needle.isPrefixOf (c :: t) || containsSub needle t

/-- Substring test on strings. -/
def strContains (needle hay : String) : Bool :=
  containsSub needle.data hay.data

/-- Query-string piece contributed by one optional parameter field: an unset
field contributes nothing, a set field contributes
`&name=<percent-encoded value>`.  Mirrors one `if let Some(ref val) = ...`
block of the generated methods. -/
def optPiece (name : String) (v : Option String) : String :=
  match v with
  | none => ""
  | some val => "&" ++ name ++ "=" ++ percentEncode (utf8Bytes val)

/-- Sequential appending of the optional-parameter pieces, in the fixed field
order in which the generated method lists its `if let` blocks. -/
def encodeParams : List (String × Option String) → String
  | [] => ""
  | (n, v) :: t => optPiece n v ++ encodeParams t

/-- Optional query-parameter set of `ChangesService::get_start_page_token`
(drive_v3_types.rs:1556-1569). -/
structure ChangesGetStartPageTokenParams where
  drive_id : Option String
  supports_all_drives : Option Bool
  supports_team_drives : Option Bool
  team_drive_id : Option String

/-- Parameter set with every optional field unset (the `Default` derive). -/
def ChangesGetStartPageTokenParams.default : ChangesGetStartPageTokenParams :=
  ⟨none, none, none, none⟩

/-- Field list of the four `if let` query-appending blocks of
`ChangesService::get_start_page_token` (drive_v3_types.rs:2385-2400), in
source order, with each present value rendered through `format!("{}", val)`. -/
def ChangesGetStartPageTokenParams.queryFields
    (p : ChangesGetStartPageTokenParams) : List (String × Option String) :=
  [("driveId", p.drive_id),
   ("supportsAllDrives", p.supports_all_drives.map boolString),
   ("supportsTeamDrives", p.supports_team_drives.map boolString),
   ("teamDriveId", p.team_drive_id)]

/-- Optional-parameter portion of the query string built by
`ChangesService::get_start_page_token` (everything `push_str`-ed after the
`?oauth_token=...&fields=*` prefix, drive_v3_types.rs:2385-2400). -/
def ChangesService.getStartPageTokenQuery
    (p : ChangesGetStartPageTokenParams) : String :=
  encodeParams p.queryFields

/-- Full URL built by `ChangesService::get_start_page_token`
(drive_v3_types.rs:2370-2402). -/
def ChangesService.getStartPageTokenUrl
    (p : ChangesGetStartPageTokenParams) (tok : String) : String :=
  let rel_path := "changes/startPageToken"
  let path := "https://www.googleapis.com/drive/v3/" ++ rel_path
  let url_params := "?oauth_token=" ++ tok ++ "&fields=*"
      ++ ChangesService.getStartPageTokenQuery p
  path ++ url_params

/-- Default scope list hardcoded in `AboutService::get`
(drive_v3_types.rs:2314-2321). -/
def aboutGetDefaultScopes : List String :=
  ["https://www.googleapis.com/auth/drive",
   "https://www.googleapis.com/auth/drive.appdata",
   "https://www.googleapis.com/auth/drive.file",
   "https://www.googleapis.com/auth/drive.metadata",
   "https://www.googleapis.com/auth/drive.metadata.readonly",
   "https://www.googleapis.com/auth/drive.photos.readonly",
   "https://www.googleapis.com/auth/drive.readonly"]

/-- Observable pieces of one `AboutService::get` invocation up to the network
call: the local `scopes` variable after the empty-fallback, the scope set
actually passed to `self.authenticator.token`, and the built request. -/
structure AboutGetCall where
  scopesVar : List String
  authScopes : List String
  method : String
  url : String
  body : String

/-- Embedding of `AboutService::get` up to the network call
(drive_v3_types.rs:2307-2333).  `selfScopes` is the service's `self.scopes`
(empty unless `set_scopes` was called); `tok` is the token the authenticator
returns.  `scopesVar` records the local `scopes` variable after the fallback
`if scopes.is_empty() { scopes = &vec![...] }` (lines 2312-2322), while
`authScopes` records the argument of the call
`self.authenticator.token(&self.scopes)` (line 2323). -/
def AboutService.get (selfScopes : List String) (tok : String) : AboutGetCall :=
  let rel_path := "about"
  let path := "https://www.googleapis.com/drive/v3/" ++ rel_path
  let scopes := if selfScopes.isEmpty then aboutGetDefaultScopes else selfScopes
  let url_params := "?oauth_token=" ++ tok ++ "&fields=*"
  { scopesVar := scopes, authScopes := selfScopes, method := "GET",
    url := path ++ url_params, body := "" }

/-- Optional query-parameter set of `FilesService::create` /
`FilesService::create_upload` (drive_v3_types.rs:1813-1838). -/
structure FilesCreateParams where
  enforce_single_parent : Option Bool
  ignore_default_visibility : Option Bool
  include_permissions_for_view : Option String
  keep_revision_forever : Option Bool
  ocr_language : Option String
  supports_all_drives : Option Bool
  supports_team_drives : Option Bool
  use_content_as_indexable_text : Option Bool

/-- Parameter set with every optional field unset (the `Default` derive). -/
def FilesCreateParams.default : FilesCreateParams :=
  ⟨none, none, none, none, none, none, none, none⟩

/-- Field list of the eight `if let` query-appending blocks of
`FilesService::create_upload` (drive_v3_types.rs:3352-3383), in source
order. -/
def FilesCreateParams.queryFields (p : FilesCreateParams) :
    List (String × Option String) :=
  [("enforceSingleParent", p.enforce_single_parent.map boolString),
   ("ignoreDefaultVisibility", p.ignore_default_visibility.map boolString),
   ("includePermissionsForView", p.include_permissions_for_view),
   ("keepRevisionForever", p.keep_revision_forever.map boolString),
   ("ocrLanguage", p.ocr_language),
   ("supportsAllDrives", p.supports_all_drives.map boolString),
   ("supportsTeamDrives", p.supports_team_drives.map boolString),
   ("useContentAsIndexableText", p.use_content_as_indexable_text.map boolString)]

/-- Built upload request of `FilesService::create_upload`: scope set passed to
the authenticator, method, URL, header list and raw byte body. -/
structure UploadRequest where
  authScopes : List String
  method : String
  url : String
  headers : List (String × String)
  body : List Nat

/-- Embedding of `FilesService::create_upload` up to the network call
(drive_v3_types.rs:3345-3391).  The method computes no scope fallback at all
and passes `&self.scopes` to `self.authenticator.token` (line 3349); the
request builder sets only a `Content-Length` header from `data.len()` and
passes `data` through unchanged as the body (lines 3386-3391). -/
def FilesService.createUpload (selfScopes : List String) (tok : String)
    (params : FilesCreateParams) (data : List Nat) : UploadRequest :=
  let rel_path := "upload/drive/v3/files"
  let path := "https://www.googleapis.com/" ++ rel_path
  let url_params := "?uploadType=media&oauth_token=" ++ tok ++ "&fields=*"
      ++ encodeParams params.queryFields
  { authScopes := selfScopes, method := "POST", url := path ++ url_params,
    headers := [("Content-Length", toString data.length)], body := data }

/-- Required parameter set of `FilesService::export`
(drive_v3_types.rs:1864-1871). -/
structure FilesExportParams where
  file_id : String
  mime_type : String

/-- Embedding of the URL built by `FilesService::export`
(drive_v3_types.rs:3491-3505): the relative path is the fixed string
`files/trash` (`format!("files/trash",)`), the required `mimeType` parameter
is appended unconditionally, and `params.file_id` is never read. -/
def FilesService.exportUrl (params : FilesExportParams) (tok : String) : String :=
  let rel_path := "files/trash"
  let path := "https://www.googleapis.com/drive/v3/" ++ rel_path
  let url_params := "?oauth_token=" ++ tok ++ "&fields=*"
      ++ ("&mimeType=" ++ percentEncode (utf8Bytes params.mime_type))
  path ++ url_params

/-- Caller-supplied sink of `FilesService::export`: `write` models
`std::io::Write::write`, returning either a bytes-written count or an I/O
error. -/
structure Sink where
  write : List Nat → Except String Nat

/-- Embedding of the chunk loop of `FilesService::export` on a 2xx response
(drive_v3_types.rs:3518): every stream item is mapped to a `Result<()>`.  A
chunk (transport) error is propagated by the inner `chunk?`, while the
statement `dst.write(chunk?.as_ref());` discards the `io::Result` returned
by the sink write, so the per-item result is `Ok(())` whether or not the
write succeeded. -/
def FilesService.exportWriteResults (dst : Sink)
    (chunks : List (Except String (List Nat))) : List (Except String Unit) :=
  chunks.map fun chunk =>
    match chunk with
    | .error e => .error e
    | .ok bytes =>
      let _writeRes := dst.write bytes
      .ok ()

/-- Chunks on which `FilesService::export` invokes `dst.write`: every
successfully received chunk of the whole collected stream, in arrival order,
regardless of any earlier write failure. -/
def FilesService.exportChunksWritten
    (chunks : List (Except String (List Nat))) : List (List Nat) :=
  chunks.filterMap fun chunk =>
    match chunk with
    | .error _ => none
    | .ok bytes => some bytes

/-- Embedding of the final result of `FilesService::export` on a 2xx response
(drive_v3_types.rs:3518-3522): the whole stream is collected into a vector of
results, then the first error found in it (if any) is returned, else
`Ok(())`. -/
def FilesService.exportOutcome (dst : Sink)
    (chunks : List (Except String (List Nat))) : Except String Unit :=
  match (FilesService.exportWriteResults dst chunks).find?
      (fun r => match r with | .error _ => true | .ok _ => false) with
  | some e => e
  | none => .ok ()

/-- Error outcomes of response interpretation: `httpError` mirrors
`ApiError::HTTPError(status)`; `decodeError` mirrors the `?`-propagated
UTF-8 / serde-JSON deserialization failures (carried by `anyhow::Error` in
the source). -/
inductive ApiErr where
  | httpError (status : Nat)
  | decodeError (msg : String)
deriving DecidableEq, Repr

/-- Success predicate of `hyper::StatusCode::is_success`: any 2xx status. -/
def is2xx (status : Nat) : Bool := 200 ≤ status && status < 300

/-- JSON whitespace accepted by serde_json around a top-level value. -/
def jsonWs (c : Char) : Bool := c == ' ' || c == '\t' || c == '\n' || c == '\r'

/-- Models `serde_json::from_str::<()>` (external `serde_json` crate):
deserializing the Rust unit type succeeds exactly on the JSON literal `null`,
optionally surrounded by JSON whitespace; anything else — in particular the
empty string — is a parse error. -/
def fromStrUnit (s : String) : Except String Unit :=
  let t := ((s.data.dropWhile jsonWs).reverse.dropWhile jsonWs).reverse
  if t = "null".data then .ok () else .error "invalid JSON for unit type"

/-- Embedding of the response tail of the no-content operations
(`FilesService::delete` drive_v3_types.rs:3439-3446, `ChannelsService::stop`
2658-2665): a non-2xx status returns `HTTPError` before the body is read; on
2xx the body is deserialized into `()` by `serde_json::from_str` and the `?`
propagates any deserialization failure. -/
def interpretNoContent (status : Nat) (body : String) : Except ApiErr Unit :=
  if !(is2xx status) then .error (.httpError status)
  else match fromStrUnit body with
    | .ok u => .ok u
    | .error e => .error (.decodeError e)

/-- Embedding of the buffered response tail shared by the JSON-returning
operations (e.g. `AboutService::get` drive_v3_types.rs:2334-2341),
parameterized by the composite UTF-8 + serde-JSON decoding step `parse`: a
non-2xx status returns `HTTPError(status)` before the body is read or parsed;
on 2xx the body is decoded and failures propagate via `?`. -/
def interpretBuffered {α : Type} (parse : String → Except String α)
    (status : Nat) (body : String) : Except ApiErr α :=
  if !(is2xx status) then .error (.httpError status)
  else match parse body with
    | .ok v => .ok v
    | .error e => .error (.decodeError e)

/-- JSON values, as produced by serde serialization of the schema structs. -/
inductive Json where
  | null
  | bool (b : Bool)
  | str (s : String)
  | arr (elems : List Json)
  | obj (fields : List (String × Json))

/-- Lowercase hexadecimal digit (used by serde_json string escapes). -/
def hexDigitCharLower (n : Nat) : Char :=
  if n < 10 then Char.ofNat (48 + n) else Char.ofNat (87 + n)

/-- Escaping of one character inside a serde_json string literal. -/
def escapeJsonChar (c : Char) : String :=
  if c = '"' then "\\\""
  else if c = '\\' then "\\\\"
  else if c = Char.ofNat 8 then "\\b"
  else if c = Char.ofNat 12 then "\\f"
  else if c = '\n' then "\\n"
  else if c = '\r' then "\\r"
  else if c = '\t' then "\\t"
  else if c.toNat < 0x20 then
    "\\u00" ++ String.singleton (hexDigitCharLower (c.toNat / 16)) ++
      String.singleton (hexDigitCharLower (c.toNat % 16))
  else String.singleton c

/-- Escaping of a whole string for a serde_json string literal. -/
def escapeJson (s : String) : String :=
  String.join (s.data.map escapeJsonChar)

mutual

/-- Compact rendering of a JSON value, as `serde_json::to_string` emits it. -/
def Json.render : Json → String
  | .null => "null"
  | .bool b => boolString b
  | .str s => "\"" ++ escapeJson s ++ "\""
  | .arr es => "[" ++ Json.renderElems es ++ "]"
  | .obj fs => "\x7b" ++ Json.renderFields fs ++ "\x7d"

/-- Comma-separated rendering of JSON array elements. -/
def Json.renderElems : List Json → String
  | [] => ""
  | [e] => Json.render e
  | e :: t => Json.render e ++ "," ++ Json.renderElems t

/-- Comma-separated rendering of JSON object members. -/
def Json.renderFields : List (String × Json) → String
  | [] => ""
  | [(k, v)] => "\"" ++ escapeJson k ++ "\":" ++ Json.render v
  | (k, v) :: t =>
      "\"" ++ escapeJson k ++ "\":" ++ Json.render v ++ "," ++
        Json.renderFields t

end

/-- Object member contributed by one struct field under
`#[serde(skip_serializing_if = "Option::is_none")]`: an unset field emits
nothing, a set field emits its renamed key and serialized value. -/
def optField (name : String) (v : Option Json) : List (String × Json) :=
  match v with
  | none => []
  | some j => [(name, j)]

/-- RFC 3339 timestamp text carried by `chrono::DateTime<Utc>`, which serde
serializes as a JSON string. -/
def DateTimeUtc : Type := String

/-- Serialization of a `DateTime<Utc>` value. -/
def DateTimeUtc.toJson (d : DateTimeUtc) : Json := .str d

/-- Schema struct `User` (drive_v3_types.rs:1524-1549); every field is
`Option` with `skip_serializing_if = "Option::is_none"`. -/
structure User where
  display_name : Option String
  email_address : Option String
  kind : Option String
  me : Option Bool
  permission_id : Option String
  photo_link : Option String

/-- Serde serialization of `User`, fields in declaration order with their
`rename` keys. -/
def User.toJson (u : User) : Json :=
  .obj (optField "displayName" (u.display_name.map .str) ++
        optField "emailAddress" (u.email_address.map .str) ++
        optField "kind" (u.kind.map .str) ++
        optField "me" (u.me.map .bool) ++
        optField "permissionId" (u.permission_id.map .str) ++
        optField "photoLink" (u.photo_link.map .str))

/-- Schema struct `CommentQuotedFileContent` (drive_v3_types.rs:243-252). -/
structure CommentQuotedFileContent where
  mime_type : Option String
  value : Option String

/-- Serde serialization of `CommentQuotedFileContent`. -/
def CommentQuotedFileContent.toJson (q : CommentQuotedFileContent) : Json :=
  .obj (optField "mimeType" (q.mime_type.map .str) ++
        optField "value" (q.value.map .str))

/-- Schema struct `Reply` (drive_v3_types.rs:1202-1238). -/
structure Reply where
  action : Option String
  author : Option User
  content : Option String
  created_time : Option DateTimeUtc
  deleted : Option Bool
  html_content : Option String
  id : Option String
  kind : Option String
  modified_time : Option DateTimeUtc

/-- Serde serialization of `Reply`. -/
def Reply.toJson (r : Reply) : Json :=
  .obj (optField "action" (r.action.map .str) ++
        optField "author" (r.author.map User.toJson) ++
        optField "content" (r.content.map .str) ++
        optField "createdTime" (r.created_time.map DateTimeUtc.toJson) ++
        optField "deleted" (r.deleted.map .bool) ++
        optField "htmlContent" (r.html_content.map .str) ++
        optField "id" (r.id.map .str) ++
        optField "kind" (r.kind.map .str) ++
        optField "modifiedTime" (r.modified_time.map DateTimeUtc.toJson))

/-- Schema struct `Comment` (drive_v3_types.rs:255-303), the request payload
of `CommentsService::create`; every field is `Option` with
`skip_serializing_if = "Option::is_none"`. -/
structure Comment where
  anchor : Option String
  author : Option User
  content : Option String
  created_time : Option DateTimeUtc
  deleted : Option Bool
  html_content : Option String
  id : Option String
  kind : Option String
  modified_time : Option DateTimeUtc
  quoted_file_content : Option CommentQuotedFileContent
  replies : Option (List Reply)
  resolved : Option Bool

/-- Comment payload with every optional field unset (the `Default` derive). -/
def Comment.default : Comment :=
  ⟨none, none, none, none, none, none, none, none, none, none, none, none⟩

/-- Serde serialization of `Comment`, fields in declaration order with their
`rename` keys. -/
def Comment.toJson (c : Comment) : Json :=
  .obj (optField "anchor" (c.anchor.map .str) ++
        optField "author" (c.author.map User.toJson) ++
        optField "content" (c.content.map .str) ++
        optField "createdTime" (c.created_time.map DateTimeUtc.toJson) ++
        optField "deleted" (c.deleted.map .bool) ++
        optField "htmlContent" (c.html_content.map .str) ++
        optField "id" (c.id.map .str) ++
        optField "kind" (c.kind.map .str) ++
        optField "modifiedTime" (c.modified_time.map DateTimeUtc.toJson) ++
        optField "quotedFileContent"
          (c.quoted_file_content.map CommentQuotedFileContent.toJson) ++
        optField "replies" (c.replies.map fun rs => Json.arr (rs.map Reply.toJson)) ++
        optField "resolved" (c.resolved.map .bool))

/-- Embedding of the body construction of the JSON-bodied operations
(`CommentsService::create` drive_v3_types.rs:2712-2716):
`let mut body_str = serde_json::to_string(req)?;
 if body_str == "null" { body_str.clear(); }` — the sentinel compared against
is the literal string `null`. -/
def clearNullSentinel (body_str : String) : String :=
  if body_str = "null" then "" else body_str

/-- Request body sent by `CommentsService::create` for payload `req`. -/
def CommentsService.createBody (req : Comment) : String :=
  clearNullSentinel (Json.render (Comment.toJson req))

set_option maxRecDepth 8192

/-- Every character emitted for one byte is `%` or ASCII alphanumeric. -/
theorem percentEncodeByte_chars : ∀ b < 256, ((percentEncodeByte b).data.all pctOutChar) = true := by decide

/-- UTF-8 encoding produces bytes below 256. -/
theorem charUtf8_lt (c : Char) : ∀ b ∈ charUtf8 c, b < 256 := by
  have hv : c.toNat < 1114112 := by
    have he : c.toNat = c.val.toNat := rfl
    rcases c.valid with h | h
    · omega
    · omega
  intro b hb
  unfold charUtf8 at hb
  split at hb
  · simp at hb; omega
  · split at hb
    · simp at hb; rcases hb with rfl | rfl <;> omega
    · split at hb
      · simp at hb; rcases hb with rfl | rfl | rfl <;> omega
      · simp at hb; rcases hb with rfl | rfl | rfl | rfl <;> omega

/-- All UTF-8 bytes of a string are below 256. -/
theorem utf8Bytes_lt (s : String) : ∀ b ∈ utf8Bytes s, b < 256 := by
  intro b hb
  rw [utf8Bytes, List.mem_flatMap] at hb
  obtain ⟨c, _, hc⟩ := hb
  exact charUtf8_lt c b hc

/-- Every character of the percent-encoder output is `%` or alphanumeric. -/
theorem percentEncode_chars (bs : List Nat) (h : ∀ b ∈ bs, b < 256) :
    ((percentEncode bs).data.all pctOutChar) = true := by
  induction bs with
  | nil => rfl
  | cons b t ih =>
    rw [percentEncode, String.data_append, List.all_append]
    refine Bool.and_eq_true _ _ |>.mpr ⟨?_, ?_⟩
    · exact percentEncodeByte_chars b (h b (List.mem_cons_self b t))
    · exact ih fun x hx => h x (List.mem_cons_of_mem b hx)

/-- Percent-encoder output never contains a literal ampersand. -/
theorem percentEncode_no_amp (bs : List Nat) (h : ∀ b ∈ bs, b < 256) :
    '&' ∉ (percentEncode bs).data := by
  intro hmem
  have hall := percentEncode_chars bs h
  rw [List.all_eq_true] at hall
  have := hall '&' hmem
  exact absurd this (by decide)


/-- Scanning for a needle that starts with an ampersand skips a
non-ampersand head character. -/
theorem containsSub_skip (needleTail : List Char) (c : Char) (hc : c ≠ '&')
    (t : List Char) :
    containsSub ('&' :: needleTail) (c :: t) = containsSub ('&' :: needleTail) t := by
  rw [containsSub]
  have : (('&' :: needleTail).isPrefixOf (c :: t)) = false := by
    rw [List.isPrefixOf_cons₂]
    have : (('&' : Char) == c) = false := beq_eq_false_iff_ne.mpr (Ne.symm hc)
    rw [this, Bool.false_and]
  rw [this, Bool.false_or]

/-- Scanning for an ampersand-initial needle skips any ampersand-free
segment. -/
theorem containsSub_skip_ampFree (needleTail a rest : List Char) (ha : '&' ∉ a) :
    containsSub ('&' :: needleTail) (a ++ rest) =
      containsSub ('&' :: needleTail) rest := by
  induction a with
  | nil => rfl
  | cons c t ih =>
    have hc : c ≠ '&' := fun h => ha (h ▸ List.mem_cons_self c t)
    rw [List.cons_append, containsSub_skip needleTail c hc,
      ih fun hm => ha (List.mem_cons_of_mem c hm)]

/-- A needle that already mismatches a segment on their shared length is
not a prefix of any extension of that segment. -/
theorem isPrefixOf_append_ne (n m x : List Char)
    (h : n.take (min n.length m.length) ≠ m.take (min n.length m.length)) :
    n.isPrefixOf (m ++ x) = false := by
  rw [Bool.eq_false_iff]
  intro h2
  have hp : n <+: m ++ x := by simpa using h2
  obtain ⟨t, ht⟩ := hp
  apply h
  have h3 : (n ++ t).take (min n.length m.length) =
      (m ++ x).take (min n.length m.length) := by rw [ht]
  rwa [List.take_append_of_le_length (Nat.min_le_left _ _),
    List.take_append_of_le_length (Nat.min_le_right _ _)] at h3

/-- Scanning for an ampersand-initial needle steps over a whole
`&`-initial, otherwise ampersand-free piece whose tail does not match the
needle's tail. -/
theorem containsSub_amp_piece (needleTail a rest : List Char)
    (ha : '&' ∉ a) (hpre : needleTail.isPrefixOf (a ++ rest) = false) :
    containsSub ('&' :: needleTail) (('&' :: a) ++ rest) =
      containsSub ('&' :: needleTail) rest := by
  rw [List.cons_append, containsSub]
  have h1 : (('&' :: needleTail).isPrefixOf ('&' :: (a ++ rest))) = false := by
    rw [List.isPrefixOf_cons₂]
    simp [hpre]
  rw [h1, Bool.false_or, containsSub_skip_ampFree needleTail a rest ha]


/-- A needle `&<needleTail>` does not occur in the encoded parameters when
every set field's `name=` mismatches `needleTail` on their shared length. -/
theorem encodeParams_absent (needleTail : List Char)
    (fields : List (String × Option String))
    (h : ∀ nm v, (nm, some v) ∈ fields →
      '&' ∉ nm.data ∧
      needleTail.take (min needleTail.length (nm.data ++ ['=']).length) ≠
        (nm.data ++ ['=']).take (min needleTail.length (nm.data ++ ['=']).length)) :
    containsSub ('&' :: needleTail) (encodeParams fields).data = false := by
  induction fields with
  | nil => rfl
  | cons hd t ih =>
    obtain ⟨nm, v⟩ := hd
    have iht := ih fun nm' v' hm => h nm' v' (List.mem_cons_of_mem _ hm)
    cases v with
    | none =>
      rw [encodeParams, show optPiece nm none = "" from rfl]
      rw [show ("" ++ encodeParams t : String) = encodeParams t from rfl]
      exact iht
    | some val =>
      have hcond := h nm val (List.mem_cons_self _ _)
      rw [encodeParams,
        show optPiece nm (some val) = "&" ++ nm ++ "=" ++ percentEncode (utf8Bytes val)
          from rfl]
      rw [String.data_append, String.data_append, String.data_append,
        String.data_append]
      have hd1 : ("&" : String).data = ['&'] := rfl
      have hd2 : ("=" : String).data = ['='] := rfl
      rw [hd1, hd2]
      have hre : ((['&'] ++ nm.data ++ ['=']) ++ (percentEncode (utf8Bytes val)).data)
            ++ (encodeParams t).data =
          ('&' :: (nm.data ++ ['='] ++ (percentEncode (utf8Bytes val)).data))
            ++ (encodeParams t).data := by
        simp [List.append_assoc]
      rw [hre]
      rw [containsSub_amp_piece needleTail
        (nm.data ++ ['='] ++ (percentEncode (utf8Bytes val)).data)
        (encodeParams t).data ?ha ?hpre]
      · exact iht
      case ha =>
        intro hmem
        rcases List.mem_append.mp hmem with hmem2 | hmem3
        · rcases List.mem_append.mp hmem2 with hnm | heq
          · exact hcond.1 hnm
          · simp at heq
        · exact percentEncode_no_amp _ (utf8Bytes_lt val) hmem3
      case hpre =>
        rw [List.append_assoc (nm.data ++ ['='])]
        exact isPrefixOf_append_ne needleTail (nm.data ++ ['=']) _ hcond.2


/-- C7 counterexample: the claim "each optional field left unset contributes
nothing: its name does not occur anywhere in the encoded query string" fails
at the concrete input with `drive_id` unset and `team_drive_id = "driveId"`:
alphanumeric bytes are not percent-escaped, so the unset field's name occurs
verbatim inside the other field's encoded value. -/
theorem c7_unsetName_occurs_counterexample :
    (ChangesGetStartPageTokenParams.mk none none none (some "driveId")).drive_id
      = none ∧
    strContains "driveId"
      (ChangesService.getStartPageTokenQuery ⟨none, none, none, some "driveId"⟩)
      = true :=
  ⟨rfl, by decide⟩

/-- C7 amended: every set optional field of
`ChangesService::get_start_page_token` is appended as
`&name=<percent-encoded value>` in the fixed descriptor-defined order
(driveId, supportsAllDrives, supportsTeamDrives, teamDriveId) and every unset
field contributes nothing — no component `&name=` occurs in the encoded query
string for an unset field (though the bare name may still occur inside
another field's percent-encoded value). -/
theorem c7_queryEncoding_amended (p : ChangesGetStartPageTokenParams) :
    (ChangesService.getStartPageTokenQuery p =
      optPiece "driveId" p.drive_id ++
      optPiece "supportsAllDrives" (p.supports_all_drives.map boolString) ++
      optPiece "supportsTeamDrives" (p.supports_team_drives.map boolString) ++
      optPiece "teamDriveId" p.team_drive_id) ∧
    (p.drive_id = none →
      strContains "&driveId=" (ChangesService.getStartPageTokenQuery p) = false) ∧
    (p.supports_all_drives = none →
      strContains "&supportsAllDrives="
        (ChangesService.getStartPageTokenQuery p) = false) ∧
    (p.supports_team_drives = none →
      strContains "&supportsTeamDrives="
        (ChangesService.getStartPageTokenQuery p) = false) ∧
    (p.team_drive_id = none →
      strContains "&teamDriveId=" (ChangesService.getStartPageTokenQuery p) = false)
    := by
  refine ⟨?_, ?_, ?_, ?_, ?_⟩
  · simp only [ChangesService.getStartPageTokenQuery,
      ChangesGetStartPageTokenParams.queryFields, encodeParams,
      String.append_empty, String.append_assoc]
  · intro hnone
    rw [strContains, show ("&driveId=").data = '&' :: ("driveId=").data from rfl]
    apply encodeParams_absent
    intro nm v hmem
    simp only [ChangesService.getStartPageTokenQuery,
      ChangesGetStartPageTokenParams.queryFields, hnone] at hmem
    rcases List.mem_cons.mp hmem with h | hmem2
    · exact absurd (congrArg Prod.snd h) (by simp)
    · rcases List.mem_cons.mp hmem2 with h | hmem3
      · have h1 : nm = "supportsAllDrives" := congrArg Prod.fst h
        subst h1; exact ⟨by decide, by decide⟩
      · rcases List.mem_cons.mp hmem3 with h | hmem4
        · have h1 : nm = "supportsTeamDrives" := congrArg Prod.fst h
          subst h1; exact ⟨by decide, by decide⟩
        · rcases List.mem_cons.mp hmem4 with h | hmem5
          · have h1 : nm = "teamDriveId" := congrArg Prod.fst h
            subst h1; exact ⟨by decide, by decide⟩
          · exact absurd hmem5 (List.not_mem_nil _)
  · intro hnone
    rw [strContains,
      show ("&supportsAllDrives=").data = '&' :: ("supportsAllDrives=").data from rfl]
    apply encodeParams_absent
    intro nm v hmem
    simp only [ChangesService.getStartPageTokenQuery,
      ChangesGetStartPageTokenParams.queryFields, hnone] at hmem
    rcases List.mem_cons.mp hmem with h | hmem2
    · have h1 : nm = "driveId" := congrArg Prod.fst h
      subst h1; exact ⟨by decide, by decide⟩
    · rcases List.mem_cons.mp hmem2 with h | hmem3
      · exact absurd (congrArg Prod.snd h) (by simp)
      · rcases List.mem_cons.mp hmem3 with h | hmem4
        · have h1 : nm = "supportsTeamDrives" := congrArg Prod.fst h
          subst h1; exact ⟨by decide, by decide⟩
        · rcases List.mem_cons.mp hmem4 with h | hmem5
          · have h1 : nm = "teamDriveId" := congrArg Prod.fst h
            subst h1; exact ⟨by decide, by decide⟩
          · exact absurd hmem5 (List.not_mem_nil _)
  · intro hnone
    rw [strContains,
      show ("&supportsTeamDrives=").data = '&' :: ("supportsTeamDrives=").data from rfl]
    apply encodeParams_absent
    intro nm v hmem
    simp only [ChangesService.getStartPageTokenQuery,
      ChangesGetStartPageTokenParams.queryFields, hnone] at hmem
    rcases List.mem_cons.mp hmem with h | hmem2
    · have h1 : nm = "driveId" := congrArg Prod.fst h
      subst h1; exact ⟨by decide, by decide⟩
    · rcases List.mem_cons.mp hmem2 with h | hmem3
      · have h1 : nm = "supportsAllDrives" := congrArg Prod.fst h
        subst h1; exact ⟨by decide, by decide⟩
      · rcases List.mem_cons.mp hmem3 with h | hmem4
        · exact absurd (congrArg Prod.snd h) (by simp)
        · rcases List.mem_cons.mp hmem4 with h | hmem5
          · have h1 : nm = "teamDriveId" := congrArg Prod.fst h
            subst h1; exact ⟨by decide, by decide⟩
          · exact absurd hmem5 (List.not_mem_nil _)
  · intro hnone
    rw [strContains, show ("&teamDriveId=").data = '&' :: ("teamDriveId=").data from rfl]
    apply encodeParams_absent
    intro nm v hmem
    simp only [ChangesService.getStartPageTokenQuery,
      ChangesGetStartPageTokenParams.queryFields, hnone] at hmem
    rcases List.mem_cons.mp hmem with h | hmem2
    · have h1 : nm = "driveId" := congrArg Prod.fst h
      subst h1; exact ⟨by decide, by decide⟩
    · rcases List.mem_cons.mp hmem2 with h | hmem3
      · have h1 : nm = "supportsAllDrives" := congrArg Prod.fst h
        subst h1; exact ⟨by decide, by decide⟩
      · rcases List.mem_cons.mp hmem3 with h | hmem4
        · have h1 : nm = "supportsTeamDrives" := congrArg Prod.fst h
          subst h1; exact ⟨by decide, by decide⟩
        · rcases List.mem_cons.mp hmem4 with h | hmem5
          · exact absurd (congrArg Prod.snd h) (by simp)
          · exact absurd hmem5 (List.not_mem_nil _)


/-- C1: evaluation at the failing input.  With `self.scopes` empty, the
generated methods compute the descriptor-declared default scope list into a
local variable but pass `&self.scopes` — the empty set — to
`authenticator.token`, so the scope set sent to the Authenticator is empty
even though a non-empty default exists (`AboutService::get`), and
`FilesService::create_upload` likewise passes the empty `self.scopes`. -/
theorem c1_scopeFallback_dead :
    aboutGetDefaultScopes ≠ [] ∧
    (AboutService.get [] "TOK").scopesVar = aboutGetDefaultScopes ∧
    (AboutService.get [] "TOK").authScopes = [] ∧
    (FilesService.createUpload [] "TOK" FilesCreateParams.default []).authScopes = [] :=
  ⟨by decide, rfl, rfl, rfl⟩

/-- C2: evaluation at the failing input.  With a sink whose every write
fails, a 2xx response delivered in chunks "ab", "cd", "ef" still has all
three chunks handed to `dst.write` (no abort after the first failed write)
and `FilesService::export` returns success, because the `io::Result` of
`dst.write` is discarded. -/
theorem c2_sinkWriteFailure_ignored :
    (Sink.mk fun _ => Except.error "disk full").write [97, 98] =
      Except.error "disk full" ∧
    FilesService.exportOutcome ⟨fun _ => Except.error "disk full"⟩
      [.ok [97, 98], .ok [99, 100], .ok [101, 102]] = .ok () ∧
    FilesService.exportChunksWritten
      [.ok [97, 98], .ok [99, 100], .ok [101, 102]] =
      [[97, 98], [99, 100], [101, 102]] :=
  ⟨rfl, rfl, rfl⟩

/-- C3 counterexample: a 2xx (status 200) response with an empty body makes
the no-content interpreter return a decode error, not success — the `?` on
`serde_json::from_str::<()>` propagates the parse failure instead of
discarding it. -/
theorem c3_emptyBody_counterexample :
    is2xx 200 = true ∧
    interpretNoContent 200 "" = .error (.decodeError "invalid JSON for unit type") ∧
    interpretNoContent 200 "" ≠ .ok () :=
  ⟨rfl, rfl, fun h => Except.noConfusion h⟩

/-- C3 amended: for a no-content (delete-style) operation, a response with a
2xx status returns unit success exactly when the body deserializes as the
JSON literal `null`; any other body (empty, malformed) yields a decode
error. -/
theorem c3_noContent_amended (status : Nat) (body : String)
    (h : is2xx status = true) :
    interpretNoContent status body = .ok () ↔ fromStrUnit body = .ok () := by
  rw [interpretNoContent, h]
  cases hf : fromStrUnit body with
  | ok u => cases u; simp
  | error e => simp [hf]

/-- C3 witness: the amended theorem applied at status 204 with body "null". -/
theorem c3_noContent_amended_witness :
    is2xx 204 = true ∧
    (interpretNoContent 204 "null" = .ok () ↔ fromStrUnit "null" = .ok ()) :=
  ⟨rfl, c3_noContent_amended 204 "null" rfl⟩

/-- Rendering a JSON object never yields the literal `null`. -/
theorem render_obj_ne_null (fs : List (String × Json)) :
    Json.render (.obj fs) ≠ "null" := by
  intro h
  have h2 := congrArg String.data h
  rw [show Json.render (.obj fs) = "\x7b" ++ Json.renderFields fs ++ "\x7d" from rfl,
    String.data_append, String.data_append] at h2
  have h4 : some '\x7b' = some 'n' := congrArg List.head? h2
  exact absurd (Option.some.inj h4) (by decide)

/-- Serializing a `Comment` never yields the literal `null`. -/
theorem comment_toJson_ne_null (c : Comment) :
    Json.render (Comment.toJson c) ≠ "null" := by
  unfold Comment.toJson
  exact render_obj_ne_null _

/-- C4 counterexample: a default `Comment` payload with every optional field
unset serializes to the empty object, and the built body is that
two-character object literal, not the empty string — the code's sentinel
check `body_str == "null"` does not clear it. -/
theorem c4_defaultPayload_counterexample :
    Json.render (Comment.toJson Comment.default) = "\x7b\x7d" ∧
    CommentsService.createBody Comment.default = "\x7b\x7d" ∧
    CommentsService.createBody Comment.default ≠ "" :=
  ⟨rfl, rfl, by decide⟩

/-- C4 amended: the body-clearing sentinel of the JSON-bodied operations is
the literal string `null`, not the empty object: a serialization equal to
`null` is cleared to an empty body, while every `Comment` payload serializes
to a JSON object and is sent verbatim — in particular the all-unset default
payload is sent as the empty object literal. -/
theorem c4_nullSentinel_amended :
    clearNullSentinel "null" = "" ∧
    (∀ req : Comment,
      CommentsService.createBody req = Json.render (Comment.toJson req)) ∧
    CommentsService.createBody Comment.default = "\x7b\x7d" := by
  refine ⟨rfl, ?_, rfl⟩
  intro req
  unfold CommentsService.createBody clearNullSentinel
  rw [if_neg (comment_toJson_ne_null req)]

/-- C5: for the buffered operations, any non-2xx status yields
`HTTPError(status)`, and the result is independent of both the response body
and the decoding function, so the error body is never parsed; a 404 response
yields `HTTPError(404)` (witness). -/
theorem c5_non2xx_httpError {α : Type} (parse₁ parse₂ : String → Except String α)
    (status : Nat) (body₁ body₂ : String) (h : is2xx status = false) :
    interpretBuffered parse₁ status body₁ = .error (.httpError status) ∧
    interpretBuffered parse₁ status body₁ = interpretBuffered parse₂ status body₂ := by
  rw [interpretBuffered, interpretBuffered, h]
  exact ⟨rfl, rfl⟩

/-- C5 witness: the theorem applied at status 404 with empty and malformed
bodies. -/
theorem c5_non2xx_httpError_witness :
    is2xx 404 = false ∧
    (interpretBuffered fromStrUnit 404 "" = .error (.httpError 404) ∧
     interpretBuffered fromStrUnit 404 "" =
       interpretBuffered fromStrUnit 404 "not json") :=
  ⟨rfl, c5_non2xx_httpError fromStrUnit fromStrUnit 404 "" "not json" rfl⟩


/-- C7 witness: the amended theorem applied at the all-unset parameter set. -/
theorem c7_queryEncoding_amended_witness :
    (ChangesService.getStartPageTokenQuery ChangesGetStartPageTokenParams.default =
      optPiece "driveId" none ++ optPiece "supportsAllDrives" none ++
      optPiece "supportsTeamDrives" none ++ optPiece "teamDriveId" none) ∧
    strContains "&driveId="
      (ChangesService.getStartPageTokenQuery ChangesGetStartPageTokenParams.default)
      = false ∧
    strContains "&supportsAllDrives="
      (ChangesService.getStartPageTokenQuery ChangesGetStartPageTokenParams.default)
      = false ∧
    strContains "&supportsTeamDrives="
      (ChangesService.getStartPageTokenQuery ChangesGetStartPageTokenParams.default)
      = false ∧
    strContains "&teamDriveId="
      (ChangesService.getStartPageTokenQuery ChangesGetStartPageTokenParams.default)
      = false := by
  have h := c7_queryEncoding_amended ChangesGetStartPageTokenParams.default
  exact ⟨h.1, h.2.1 rfl, h.2.2.1 rfl, h.2.2.2.1 rfl, h.2.2.2.2 rfl⟩

/-- C6 counterexample: `FilesService::export` is a no-body GET operation
with zero optional query parameters, yet its URL is not exactly
`base + path + "?oauth_token=" + token + "&fields=*"`: the required
`mimeType` parameter is appended unconditionally. -/
theorem c6_exactUrl_counterexample :
    (FilesService.exportUrl ⟨"f1", "text/plain"⟩ "TOK" ≠
      "https://www.googleapis.com/drive/v3/" ++ "files/trash" ++ "?oauth_token=" ++
        "TOK" ++ "&fields=*") ∧
    FilesService.exportUrl ⟨"f1", "text/plain"⟩ "TOK" =
      "https://www.googleapis.com/drive/v3/files/trash?oauth_token=TOK&fields=*&mimeType=text%2Fplain" :=
  ⟨by decide, rfl⟩

/-- C6 amended: for the no-body GET operations with no required query
parameters (`AboutService::get`, and
`ChangesService::get_start_page_token` with all optional parameters unset),
the built URL is exactly
`base_url + resolved_path + "?oauth_token=" + token + "&fields=*"` with
nothing else appended. -/
theorem c6_exactUrl_amended (selfScopes : List String) (tok : String) :
    (AboutService.get selfScopes tok).url =
      "https://www.googleapis.com/drive/v3/" ++ "about" ++ "?oauth_token=" ++ tok ++
        "&fields=*" ∧
    ChangesService.getStartPageTokenUrl ChangesGetStartPageTokenParams.default tok =
      "https://www.googleapis.com/drive/v3/" ++ "changes/startPageToken" ++
        "?oauth_token=" ++ tok ++ "&fields=*" := by
  constructor
  · simp only [AboutService.get, String.append_assoc]
  · simp [ChangesService.getStartPageTokenUrl,
      ChangesService.getStartPageTokenQuery,
      ChangesGetStartPageTokenParams.queryFields,
      ChangesGetStartPageTokenParams.default, encodeParams, optPiece,
      String.append_empty, String.append_assoc]
    rw [← String.append_assoc]
    rfl

/-- C8: the query encoder percent-escapes every byte that is not an ASCII
alphanumeric — every output character is `%` or alphanumeric — so the
encoded output contains no literal occurrence of space, `&`, `=`, `?` or
`/`; the sample value " &=?/" encodes to "%20%26%3D%3F%2F". -/
theorem c8_percentEncode_escapes (s : String) :
    ((percentEncode (utf8Bytes s)).data.all pctOutChar) = true ∧
    ((percentEncode (utf8Bytes s)).data.all fun c =>
      !(c == ' ' || c == '&' || c == '=' || c == '?' || c == '/')) = true ∧
    percentEncode (utf8Bytes " &=?/") = "%20%26%3D%3F%2F" := by
  refine ⟨percentEncode_chars _ (utf8Bytes_lt s), ?_, by decide⟩
  have h := percentEncode_chars _ (utf8Bytes_lt s)
  rw [List.all_eq_true] at h ⊢
  intro c hc
  have h2 := h c hc
  rw [pctOutChar, Bool.or_eq_true] at h2
  rcases h2 with h3 | h3
  · rw [show c = '%' from by simpa using h3]
    decide
  · simp only [Bool.not_eq_true', Bool.or_eq_false_iff]
    refine ⟨⟨⟨⟨?_, ?_⟩, ?_⟩, ?_⟩, ?_⟩ <;>
      refine beq_eq_false_iff_ne.mpr fun hcc => ?_ <;>
      subst hcc <;> exact absurd h3 (by decide)

set_option maxRecDepth 8192

/-- C9: `FilesService::create_upload` carries the payload bytes unchanged as
the request body, sets exactly one header, `Content-Length`, equal to the
payload length, carries no `Content-Type: application/json` header, and a
payload of length 1024 yields `Content-Length: 1024`. -/
theorem c9_upload_passthrough (selfScopes : List String) (tok : String)
    (params : FilesCreateParams) (data : List Nat) :
    (FilesService.createUpload selfScopes tok params data).body = data ∧
    (FilesService.createUpload selfScopes tok params data).headers =
      [("Content-Length", toString data.length)] ∧
    ("Content-Type", "application/json") ∉
      (FilesService.createUpload selfScopes tok params data).headers ∧
    (FilesService.createUpload selfScopes tok params
      (List.replicate 1024 0)).headers = [("Content-Length", "1024")] := by
  refine ⟨rfl, rfl, ?_, rfl⟩
  intro hmem
  rcases List.mem_cons.mp hmem with h | h
  · have h1 : "Content-Type" = "Content-Length" := congrArg Prod.fst h
    exact absurd h1 (by decide)
  · exact absurd h (List.not_mem_nil _)

/-- C10: the URL built by `FilesService::export` uses the fixed relative
path `files/trash`; it is a function of the token and the percent-encoded
`mimeType` only, so the required `file_id` parameter never influences the
built URL. -/
theorem c10_exportUrl_fixed_path (fid₁ fid₂ mt tok : String) :
    FilesService.exportUrl ⟨fid₁, mt⟩ tok =
      "https://www.googleapis.com/drive/v3/" ++ "files/trash" ++ "?oauth_token=" ++
        tok ++ "&fields=*" ++ "&mimeType=" ++ percentEncode (utf8Bytes mt) ∧
    FilesService.exportUrl ⟨fid₁, mt⟩ tok = FilesService.exportUrl ⟨fid₂, mt⟩ tok := by
  constructor
  · simp only [FilesService.exportUrl, String.append_assoc]
  · rfl

end DriveV3
